import Mathlib

/-!
# Verification of the Reports-Portal OAuth credential-lifecycle subsystem

Shallow embedding of the credential-lifecycle code described in
`OAUTH_IMPLEMENTATION_GUIDE.md`: token encryption at rest
(`encryptToken` / `decryptToken`), the connection store
(`saveConnection` / `getConnections` over the `social_connections` schema),
the OAuth state cookie (initiation and callback routes), the token
exchange (`exchangeCodeForTokens`) and the refresh check
(`refreshTokenIfNeeded`).

Modelling conventions:
* JavaScript strings that carry token material are embedded as `List Nat`
  (byte strings); identifier-like strings (user ids, platform names,
  cookie names) stay `String`.
* Timestamps are milliseconds since the epoch, embedded as `Int`
  (`Date.now()`, `Date.getTime()`).
* The AES-256-CBC block cipher from the guide cannot be embedded
  bit-for-bit; it is modelled as an invertible keyed byte-stream
  transform (`encBytes` / `decBytes`) that is deterministic in the key
  and the IV, which are the properties the surrounding code relies on.
  The on-the-wire format of `encryptToken` — hex-encoded IV, a `:`
  separator, hex-encoded ciphertext — is modelled exactly.
* Network effects are made explicit: an HTTP round trip consumes one
  `HttpResponse` from a list of pending provider responses, so the
  number of outbound requests made by a function is visible as the
  number of responses it consumes.
-/

/-- Byte value of the `:` separator the guide puts between IV and
ciphertext. -/
def colonByte : Nat := 58

/-- Lower-case hex digit (as a byte) of a nibble, as produced by
`Buffer.toString('hex')`. -/
def hexChar (n : Nat) : Nat := if n < 10 then 48 + n else 87 + n

/-- Value of a lower-case hex digit byte. -/
def hexVal (c : Nat) : Nat := if c < 58 then c - 48 else c - 87

/-- Hex encoding of a byte string (`Buffer.toString('hex')`). -/
def bytesToHex : List Nat → List Nat
  | [] => []
  | b :: bs => hexChar (b / 16) :: hexChar (b % 16) :: bytesToHex bs

/-- Hex decoding of a byte string (`Buffer.from(_, 'hex')`). -/
def hexToBytes : List Nat → List Nat
  | c1 :: c2 :: cs => (hexVal c1 * 16 + hexVal c2) :: hexToBytes cs
  | _ => []

/-- The low `n` base-256 digits of `v`, least significant first. -/
def natToBytes : Nat → Nat → List Nat
  | 0, _ => []
  | n + 1, v => v % 256 :: natToBytes n (v / 256)

/-- The 16-byte IV buffer produced by `crypto.randomBytes(IV_LENGTH)`;
the random value itself is a parameter of the model. -/
def ivBytes (iv : Nat) : List Nat := natToBytes 16 iv

/-- Numeric seed derived from an IV buffer, feeding the model keystream. -/
def ivSeed (ivb : List Nat) : Nat := ivb.foldl (fun a b => a * 256 + b) 0

/-- Model keystream byte `i` for a given key and IV buffer. -/
def ksByte (key : Nat) (ivb : List Nat) (i : Nat) : Nat :=
  (key + ivSeed ivb + i * 131) % 256

/-- Model cipher: encrypt a byte string under `key` and IV buffer `ivb`,
starting at stream position `i` (stands in for the AES-256-CBC
`cipher.update`/`cipher.final` pass). -/
def encBytes (key : Nat) (ivb : List Nat) : Nat → List Nat → List Nat
  | _, [] => []
  | i, b :: bs => (b + ksByte key ivb i) % 256 :: encBytes key ivb (i + 1) bs

/-- Model cipher inverse (stands in for the `decipher` pass). -/
def decBytes (key : Nat) (ivb : List Nat) : Nat → List Nat → List Nat
  | _, [] => []
  | i, c :: cs => (c + 256 - ksByte key ivb i) % 256 :: decBytes key ivb (i + 1) cs

/-- Embedding of `encryptToken` (guide lines 595-601): fresh IV, cipher pass, output
`iv.toString('hex') + ':' + encrypted.toString('hex')`. -/
def encryptToken (key iv : Nat) (token : List Nat) : List Nat :=
  bytesToHex (ivBytes iv) ++ colonByte :: bytesToHex (encBytes key (ivBytes iv) 0 token)

/-- Embedding of `decryptToken` (guide lines 603-611): split at the first `:`, hex-decode
the IV and the ciphertext, run the decipher pass. -/
def decryptToken (key : Nat) (enc : List Nat) : List Nat :=
  decBytes key (hexToBytes (enc.takeWhile (fun c => c != colonByte))) 0
    (hexToBytes ((enc.dropWhile (fun c => c != colonByte)).drop 1))

theorem hexVal_hexChar {n : Nat} (h : n < 16) : hexVal (hexChar n) = n := by
  simp only [hexChar, hexVal]
  split <;> split <;> omega

theorem hexChar_ne_colon {n : Nat} (h : n < 16) : hexChar n ≠ 58 := by
  simp only [hexChar]
  split <;> omega

theorem mem_bytesToHex_ne_colon {bs : List Nat} (hb : ∀ b ∈ bs, b < 256) :
    ∀ c ∈ bytesToHex bs, c ≠ 58 := by
  induction bs with
  | nil => simp [bytesToHex]
  | cons b bs ih =>
    have hb0 : b < 256 := hb b (by simp)
    simp only [bytesToHex, List.mem_cons]
    rintro c (rfl | rfl | hc)
    · exact hexChar_ne_colon (by omega)
    · exact hexChar_ne_colon (by omega)
    · exact ih (fun x hx => hb x (by simp [hx])) c hc

theorem hexToBytes_bytesToHex {bs : List Nat} (hb : ∀ b ∈ bs, b < 256) :
    hexToBytes (bytesToHex bs) = bs := by
  induction bs with
  | nil => rfl
  | cons b bs ih =>
    have hb0 : b < 256 := hb b (by simp)
    have h1 : b / 16 < 16 := by omega
    have h2 : b % 16 < 16 := by omega
    simp only [bytesToHex, hexToBytes, hexVal_hexChar h1, hexVal_hexChar h2]
    rw [ih (fun x hx => hb x (by simp [hx]))]
    congr 1
    omega

theorem takeWhile_colon {l r : List Nat} (hl : ∀ c ∈ l, c ≠ 58) :
    (l ++ 58 :: r).takeWhile (fun c => c != 58) = l := by
  induction l with
  | nil => simp [List.takeWhile]
  | cons c l ih =>
    have hc : c ≠ 58 := hl c (by simp)
    simp only [List.cons_append, List.takeWhile_cons]
    simp only [bne_iff_ne, ne_eq, hc, not_false_eq_true, if_true]
    rw [ih (fun x hx => hl x (by simp [hx]))]

theorem dropWhile_colon {l r : List Nat} (hl : ∀ c ∈ l, c ≠ 58) :
    (l ++ 58 :: r).dropWhile (fun c => c != 58) = 58 :: r := by
  induction l with
  | nil => simp [List.dropWhile]
  | cons c l ih =>
    have hc : c ≠ 58 := hl c (by simp)
    simp only [List.cons_append, List.dropWhile_cons]
    simp only [bne_iff_ne, ne_eq, hc, not_false_eq_true, if_true]
    exact ih (fun x hx => hl x (by simp [hx]))

theorem ksByte_lt (key : Nat) (ivb : List Nat) (i : Nat) : ksByte key ivb i < 256 :=
  Nat.mod_lt _ (by omega)

theorem decBytes_encBytes {key : Nat} {ivb : List Nat} {bs : List Nat}
    (hb : ∀ b ∈ bs, b < 256) :
    ∀ i, decBytes key ivb i (encBytes key ivb i bs) = bs := by
  induction bs with
  | nil => intro i; rfl
  | cons b bs ih =>
    intro i
    have hb0 : b < 256 := hb b (by simp)
    have hks : ksByte key ivb i < 256 := ksByte_lt key ivb i
    simp only [encBytes, decBytes]
    rw [ih (fun x hx => hb x (by simp [hx]))]
    congr 1
    omega

theorem mem_encBytes_lt (key : Nat) (ivb : List Nat) :
    ∀ (i : Nat) (bs : List Nat), ∀ c ∈ encBytes key ivb i bs, c < 256 := by
  intro i bs
  induction bs generalizing i with
  | nil => simp [encBytes]
  | cons b bs ih =>
    simp only [encBytes, List.mem_cons]
    rintro c (rfl | hc)
    · exact Nat.mod_lt _ (by omega)
    · exact ih (i + 1) c hc

theorem mem_natToBytes_lt : ∀ (n v : Nat), ∀ b ∈ natToBytes n v, b < 256 := by
  intro n
  induction n with
  | zero => simp [natToBytes]
  | succ n ih =>
    intro v
    simp only [natToBytes, List.mem_cons]
    rintro b (rfl | hb)
    · exact Nat.mod_lt _ (by omega)
    · exact ih (v / 256) b hb

theorem mem_ivBytes_lt (iv : Nat) : ∀ b ∈ ivBytes iv, b < 256 :=
  mem_natToBytes_lt 16 iv

theorem decryptToken_encryptToken_eq {key iv : Nat} {token : List Nat}
    (hb : ∀ b ∈ token, b < 256) :
    decryptToken key (encryptToken key iv token) = token := by
  have hiv := mem_ivBytes_lt iv
  have hct := mem_encBytes_lt key (ivBytes iv) 0 token
  have hne : ∀ c ∈ bytesToHex (ivBytes iv), c ≠ 58 := mem_bytesToHex_ne_colon hiv
  simp only [decryptToken, encryptToken, colonByte]
  rw [takeWhile_colon hne, dropWhile_colon hne, List.drop_one, List.tail_cons,
    hexToBytes_bytesToHex hiv, hexToBytes_bytesToHex hct]
  exact decBytes_encBytes hb 0

theorem bytesToHex_length (bs : List Nat) : (bytesToHex bs).length = 2 * bs.length := by
  induction bs with
  | nil => rfl
  | cons b bs ih => simp [bytesToHex, ih]; omega

theorem natToBytes_length : ∀ n v, (natToBytes n v).length = n := by
  intro n
  induction n with
  | zero => intro v; rfl
  | succ n ih => intro v; simp [natToBytes, ih]

theorem encBytes_length (key : Nat) (ivb : List Nat) :
    ∀ i bs, (encBytes key ivb i bs).length = bs.length := by
  intro i bs
  induction bs generalizing i with
  | nil => rfl
  | cons b bs ih => simp [encBytes, ih]

theorem encryptToken_length (key iv : Nat) (token : List Nat) :
    (encryptToken key iv token).length = 33 + 2 * token.length := by
  simp [encryptToken, bytesToHex_length, ivBytes, natToBytes_length, encBytes_length]
  omega

/-- The stored (encrypted) form of a token is never the plaintext: the
encrypted form is strictly longer. -/
theorem encryptToken_ne (key iv : Nat) (token : List Nat) :
    encryptToken key iv token ≠ token := by
  intro h
  have := congrArg List.length h
  rw [encryptToken_length] at this
  omega

/-! ## Data model (guide lines 104-144: `social_connections` schema and
OAuth provider types) -/

/-- A row of the `social_connections` table (schema, guide lines 108-122).
Token fields hold the stored, i.e. encrypted, byte strings. The
`connected_at` / `last_refreshed_at` audit timestamps are not referenced
by any lifecycle operation modelled here and are omitted. -/
structure SocialConnection where
  id : String
  userId : String
  platform : String
  accessToken : List Nat
  refreshToken : Option (List Nat)
  tokenExpiresAt : Option Int
  platformUserId : String
  platformUsername : Option String
  platformProfileImage : Option String
  scopes : List String
  isActive : Bool
deriving DecidableEq

/-- The argument record of `saveConnection` (guide lines 679-689), with
plaintext token material. -/
structure ConnectionData where
  userId : String
  platform : String
  accessToken : List Nat
  refreshToken : Option (List Nat)
  tokenExpiresAt : Option Int
  platformUserId : String
  platformUsername : Option String
  platformProfileImage : Option String
  scopes : List String
deriving DecidableEq

/-- Embedding of `OAuthTokens` (guide lines 139-144). -/
structure OAuthTokens where
  accessToken : List Nat
  refreshToken : Option (List Nat)
  expiresIn : Option Int
  tokenType : Option String
deriving DecidableEq

/-- JavaScript truthiness of an optional string: `undefined`, `null` and
the empty string are falsy. Used where the guide writes
`data.refreshToken ? _ : null` and `a || b`. -/
def truthyStr : Option (List Nat) → Option (List Nat)
  | some s => if s.isEmpty then none else some s
  | none => none

/-- Embedding of `tokens.expiresIn ? new Date(Date.now() + tokens.expiresIn * 1000) : null`
(guide lines 243-245 and 642-644); note `expiresIn = 0` is falsy. -/
def expiryFromNow (nowMs : Int) : Option Int → Option Int
  | none => none
  | some s => if s == 0 then none else some (nowMs + s * 1000)

/-- Embedding of `newTokens.refreshToken || connection.refreshToken` (guide line 641). -/
def orFalsy (fresh old : Option (List Nat)) : Option (List Nat) :=
  match truthyStr fresh with
  | some rt => some rt
  | none => old

/-! ## Credential store (guide lines 679-721) -/

/-- Embedding of `saveConnection` (guide lines 679-703): a plain `db.insert` of a fresh
row with a new random id, token material encrypted, `isActive: true`.
The random id and the two fresh IVs drawn inside `encryptToken` are
parameters of the model. The insert appends to the table. -/
def saveConnection (key ivA ivR : Nat) (newId : String) (data : ConnectionData)
    (store : List SocialConnection) : List SocialConnection :=
  store ++ [{ id := newId, userId := data.userId, platform := data.platform,
              accessToken := encryptToken key ivA data.accessToken,
              refreshToken := (truthyStr data.refreshToken).map (encryptToken key ivR),
              tokenExpiresAt := data.tokenExpiresAt,
              platformUserId := data.platformUserId,
              platformUsername := data.platformUsername,
              platformProfileImage := data.platformProfileImage,
              scopes := data.scopes,
              isActive := true }]

/-- Embedding of `getConnections` (guide lines 705-721): select the rows of `userId`
with `isActive = true`, then return each row with `accessToken` (and only
`accessToken`) decrypted. -/
def getConnections (key : Nat) (userId : String) (store : List SocialConnection) :
    List SocialConnection :=
  (store.filter (fun c => c.userId == userId && c.isActive)).map
    (fun c => { c with accessToken := decryptToken key c.accessToken })

theorem getConnections_append (key : Nat) (u : String) (store : List SocialConnection)
    (row : SocialConnection) :
    getConnections key u (store ++ [row]) =
      getConnections key u store ++
        (if row.userId == u && row.isActive then
          [{ row with accessToken := decryptToken key row.accessToken }] else []) := by
  simp only [getConnections, List.filter_append, List.map_append]
  by_cases h : (row.userId == u && row.isActive) = true
  · simp [List.filter, h]
  · simp [List.filter, h]

theorem getConnections_saveConnection (key ivA ivR : Nat) (newId : String)
    (data : ConnectionData) (store : List SocialConnection)
    (hb : ∀ b ∈ data.accessToken, b < 256) :
    getConnections key data.userId (saveConnection key ivA ivR newId data store) =
      getConnections key data.userId store ++
        [{ id := newId, userId := data.userId, platform := data.platform,
           accessToken := data.accessToken,
           refreshToken := (truthyStr data.refreshToken).map (encryptToken key ivR),
           tokenExpiresAt := data.tokenExpiresAt,
           platformUserId := data.platformUserId,
           platformUsername := data.platformUsername,
           platformProfileImage := data.platformProfileImage,
           scopes := data.scopes,
           isActive := true }] := by
  rw [saveConnection, getConnections_append]
  simp [decryptToken_encryptToken_eq hb]

/-- An active stored row of a user appears in that user's
`getConnections` output (with its access token decrypted). -/
theorem mem_getConnections_of_active (key : Nat) (store : List SocialConnection)
    (conn : SocialConnection) (hMem : conn ∈ store) (hA : conn.isActive = true) :
    { conn with accessToken := decryptToken key conn.accessToken } ∈
      getConnections key conn.userId store := by
  simp only [getConnections, List.mem_map]
  refine ⟨conn, ?_, rfl⟩
  simp [List.mem_filter, hMem, hA]

/-! ## OAuth state cookie and routes (guide lines 149-263) -/

/-- A browser cookie: name, value and absolute expiry time in ms (set
from `maxAge`). -/
structure Cookie where
  name : String
  value : String
  expires : Int
deriving DecidableEq

/-- Embedding of `request.cookies.get(name)?.value` at time `nowMs`: an expired cookie
is no longer sent by the browser, so it reads as absent. -/
def getCookie (jar : List Cookie) (name : String) (nowMs : Int) : Option String :=
  (jar.find? (fun c => c.name == name && decide (nowMs < c.expires))).map Cookie.value

/-- Embedding of `response.cookies.set(name, value, maxAge)`: replaces any cookie
of the same name. -/
def setCookie (jar : List Cookie) (name value : String) (expires : Int) : List Cookie :=
  { name := name, value := value, expires := expires } ::
    jar.filter (fun c => c.name != name)

/-- Embedding of `response.cookies.delete(name)`. -/
def deleteCookie (jar : List Cookie) (name : String) : List Cookie :=
  jar.filter (fun c => c.name != name)

/-- The per-platform state cookie name `oauth_state_${platform}`. -/
def stateCookieName (platform : String) : String := "oauth_state_" ++ platform

/-- The state-cookie write the initiation route performs on its first
`NextResponse` (guide lines 169-175): `oauth_state_${platform} := state`
with `maxAge: 600` (10 minutes). In the source that first response
object is then discarded — see `oauthInitiate` — so this write never
reaches the browser. The callback theorems use this definition to
describe a jar in which the state cookie is present the way the route's
own comment ("Store state in session/cookie (for verification in
callback)") says it should be stored. -/
def setStateCookie (platform state : String) (nowMs : Int) (jar : List Cookie) :
    List Cookie :=
  setCookie jar (stateCookieName platform) state (nowMs + 600 * 1000)

/-- Embedding of the initiation route's actual effect on the browser's
cookie jar (guide lines 154-186). The route sets the state cookie on a
first `NextResponse.redirect` (the write modelled by `setStateCookie`)
but then returns a fresh `NextResponse.redirect(authUrl.toString())`
built at line 185, which carries no Set-Cookie header; the
cookie-bearing response is discarded, so the returned redirect leaves
the jar unchanged and the state cookie is never actually stored. The
random state value is a parameter of the model; the authorization-URL
construction is not needed by any claim. -/
def oauthInitiate (_platform _state : String) (_nowMs : Int) (jar : List Cookie) :
    List Cookie :=
  jar

/-- A provider response to a token-endpoint request. `tokens` is the
parsed JSON body, meaningful when `ok` is true; `body` is
`response.text()`, used in the failure path. -/
structure HttpResponse where
  ok : Bool
  status : Nat
  body : String
  tokens : OAuthTokens
deriving DecidableEq

/-- The exception thrown by `exchangeCodeForTokens` on a non-success
response (guide lines 290-293): a plain `Error` whose message is the
template `Token exchange failed: ` followed by `await response.text()`
— the response body text only; `response.status` is never read into
it. -/
inductive ExchangeError where
  | exchangeFailed (message : String)
deriving DecidableEq

/-- Embedding of `exchangeCodeForTokens` (guide lines 270-303): one `fetch` of the
provider token endpoint — consuming exactly one pending response — then
either the parsed tokens (on `response.ok`) or a thrown error whose
message is `Token exchange failed: ` plus the response body text (the
provider status is discarded); no retry. The second component is the
list of pending responses left unconsumed. An empty response list
stands for a transport failure of the single fetch (a rejected
`fetch`). -/
def exchangeCodeForTokens :
    List HttpResponse → Except ExchangeError OAuthTokens × List HttpResponse
  | [] => (Except.error (ExchangeError.exchangeFailed "fetch failed"), [])
  | r :: rest =>
    if r.ok then (Except.ok r.tokens, rest)
    else (Except.error (ExchangeError.exchangeFailed ("Token exchange failed: " ++ r.body)),
      rest)

/-- Query parameters of the callback request: `code`, `state`, `error`. -/
structure CallbackParams where
  code : Option String
  state : Option String
  error : Option String
deriving DecidableEq

/-- Result of `fetchUserProfile`; the profile fetch itself is external and
modelled as already resolved. -/
structure UserProfile where
  id : String
  username : Option String
  profileImage : Option String
deriving DecidableEq

/-- The closed set of outcomes of the callback route: a redirect to the
connections view with `success=true` or one of the error codes
`missing_parameters`, `invalid_state`, `connection_failed`, or the
platform-supplied error propagated from the `error` query parameter. -/
inductive CallbackResult where
  | success
  | errPlatform (code : String)
  | errMissingParameters
  | errInvalidState
  | errConnectionFailed
deriving DecidableEq

/-- Full effect of one callback request: the redirect outcome, the cookie
jar after the response's cookie mutations, the connection table, and the
provider responses left unconsumed. -/
structure CallbackOutcome where
  result : CallbackResult
  jar : List Cookie
  store : List SocialConnection
  resps : List HttpResponse
deriving DecidableEq

/-- The callback route (guide lines 197-263), in source order:
propagate a platform `error` parameter; reject missing `code`/`state`
with `missing_parameters`; compare the presented `state` against the
`oauth_state_${platform}` cookie and reject a mismatch (or an absent /
expired cookie) with `invalid_state`; then exchange the code, save the
connection and delete the state cookie on success, or redirect with
`connection_failed` if the exchange throws. The current user id, the
fetched profile, the provider scopes, the encryption key, the fresh IVs
and the fresh row id are parameters of the model. -/
def oauthCallback (platform : String) (params : CallbackParams)
    (userId : String) (profile : UserProfile) (scopes : List String)
    (key ivA ivR : Nat) (newId : String) (nowMs : Int)
    (jar : List Cookie) (store : List SocialConnection)
    (resps : List HttpResponse) : CallbackOutcome :=
  match params.error with
  | some e => { result := CallbackResult.errPlatform e, jar := jar, store := store,
                resps := resps }
  | none =>
    match params.code, params.state with
    | some _, some state =>
      if getCookie jar (stateCookieName platform) nowMs = some state then
        match exchangeCodeForTokens resps with
        | (Except.ok tokens, rest) =>
          { result := CallbackResult.success,
            jar := deleteCookie jar (stateCookieName platform),
            store := saveConnection key ivA ivR newId
              { userId := userId, platform := platform,
                accessToken := tokens.accessToken,
                refreshToken := tokens.refreshToken,
                tokenExpiresAt := expiryFromNow nowMs tokens.expiresIn,
                platformUserId := profile.id,
                platformUsername := profile.username,
                platformProfileImage := profile.profileImage,
                scopes := scopes } store,
            resps := rest }
        | (Except.error _, rest) =>
          { result := CallbackResult.errConnectionFailed, jar := jar, store := store,
            resps := rest }
      else
        { result := CallbackResult.errInvalidState, jar := jar, store := store,
          resps := resps }
    | _, _ =>
      { result := CallbackResult.errMissingParameters, jar := jar, store := store,
        resps := resps }

/-! ## Token refresh (guide lines 630-650) -/

/-- The error surface of `refreshAccessToken`. The function itself is not
present in the repository's source; per the specification's error
taxonomy, a `RefreshFailed` signals whether the refresh token itself was
rejected (terminal) or the failure was transient. -/
inductive RefreshError where
  | refreshFailed (invalidRefreshToken : Bool) (body : String)
deriving DecidableEq

/-- The update record passed to `updateConnection(connection.id, {...})`
(guide lines 639-645). -/
structure ConnUpdate where
  id : String
  accessToken : List Nat
  refreshToken : Option (List Nat)
  tokenExpiresAt : Option Int
deriving DecidableEq

/-- Observable effect of one `refreshTokenIfNeeded` call: the returned
access token (or the propagated refresh error), the argument of the
`refreshAccessToken` call if one was made (`none` = not called), and the
`updateConnection` write if one was made. -/
structure RefreshStep where
  result : Except RefreshError (List Nat)
  refreshCall : Option (Option (List Nat))
  update : Option ConnUpdate

/-- The fixed refresh buffer: `5 * 60 * 1000` ms (guide line 634). -/
def bufferTime : Int := 5 * 60 * 1000

/-- Embedding of `refreshTokenIfNeeded` (guide lines 630-650): a connection with no
expiry timestamp short-circuits to its stored access token; otherwise
`expiresIn = tokenExpiresAt - Date.now()` and, when `expiresIn <
bufferTime`, `refreshAccessToken` is invoked with the stored refresh
token. Its outcome is a parameter of the model: a thrown error
propagates (the function has no handler and performs no write); on
success `updateConnection` is called with the new tokens and expiry and
the new access token is returned. -/
def refreshTokenIfNeeded (conn : SocialConnection) (nowMs : Int)
    (refreshOutcome : Except RefreshError OAuthTokens) : RefreshStep :=
  match conn.tokenExpiresAt with
  | none => { result := Except.ok conn.accessToken, refreshCall := none, update := none }
  | some expiresAt =>
    if expiresAt - nowMs < bufferTime then
      match refreshOutcome with
      | Except.error e =>
        { result := Except.error e, refreshCall := some conn.refreshToken, update := none }
      | Except.ok newTokens =>
        { result := Except.ok newTokens.accessToken,
          refreshCall := some conn.refreshToken,
          update := some { id := conn.id, accessToken := newTokens.accessToken,
                           refreshToken := orFalsy newTokens.refreshToken conn.refreshToken,
                           tokenExpiresAt := expiryFromNow nowMs newTokens.expiresIn } }
    else
      { result := Except.ok conn.accessToken, refreshCall := none, update := none }

/-! ## Cookie lemmas -/

theorem find_cookie_filter_ne (jar : List Cookie) (n : String) (nowMs : Int) :
    (jar.filter (fun c => c.name != n)).find?
      (fun c => c.name == n && decide (nowMs < c.expires)) = none := by
  rw [List.find?_eq_none]
  intro x hx
  rw [List.mem_filter] at hx
  have hne : x.name ≠ n := by simpa using hx.2
  simp [Bool.and_eq_true, beq_iff_eq, hne]

theorem getCookie_deleteCookie (jar : List Cookie) (n : String) (nowMs : Int) :
    getCookie (deleteCookie jar n) n nowMs = none := by
  simp only [getCookie, deleteCookie, find_cookie_filter_ne, Option.map_none']

theorem getCookie_setStateCookie_fresh (platform state : String) (t0 nowMs : Int)
    (jar : List Cookie) (h : nowMs < t0 + 600 * 1000) :
    getCookie (setStateCookie platform state t0 jar) (stateCookieName platform) nowMs =
      some state := by
  unfold getCookie setStateCookie setCookie
  rw [List.find?_cons_of_pos]
  · rfl
  · have hlt : nowMs < t0 + 600000 := by omega
    simp [hlt]

theorem getCookie_setStateCookie_expired (platform state : String) (t0 nowMs : Int)
    (jar : List Cookie) (h : t0 + 600 * 1000 ≤ nowMs) :
    getCookie (setStateCookie platform state t0 jar) (stateCookieName platform) nowMs =
      none := by
  unfold getCookie setStateCookie setCookie
  rw [List.find?_cons_of_neg]
  · rw [find_cookie_filter_ne]
    rfl
  · have hlt : ¬ nowMs < t0 + 600000 := by omega
    simp [hlt]

/-! ## Claim theorems -/

/-- Claim C9: `decryptToken` is a left inverse of `encryptToken` — for
every key, IV and byte-string token, decrypting the encrypted form
recovers the original token; the hex-encoded IV is prepended before the
`:` separator, so the round trip holds for every IV independently of any
other stored value. -/
theorem decryptToken_left_inverse (key iv : Nat) (token : List Nat)
    (hb : ∀ b ∈ token, b < 256) :
    decryptToken key (encryptToken key iv token) = token :=
  decryptToken_encryptToken_eq hb

/-- Concrete instance of `decryptToken_left_inverse` on the byte string
`"post"`. -/
theorem decryptToken_left_inverse_witness :
    (∀ b ∈ [112, 111, 115, 116], b < 256) ∧
      decryptToken 42 (encryptToken 42 7 [112, 111, 115, 116]) = [112, 111, 115, 116] :=
  ⟨by decide, decryptToken_left_inverse 42 7 [112, 111, 115, 116] (by decide)⟩

/-- Claim C10: for a stored connection whose expiry timestamp is null,
`refreshTokenIfNeeded` is a no-op at every current time: it returns the
stored access token, makes no refresh call and writes no update. -/
theorem refresh_noop_without_expiry (conn : SocialConnection) (nowMs : Int)
    (o : Except RefreshError OAuthTokens) (h : conn.tokenExpiresAt = none) :
    refreshTokenIfNeeded conn nowMs o =
      { result := Except.ok conn.accessToken, refreshCall := none, update := none } := by
  simp [refreshTokenIfNeeded, h]

/-- Concrete instance of `refresh_noop_without_expiry`. -/
theorem refresh_noop_without_expiry_witness :
    refreshTokenIfNeeded
        { id := "c1", userId := "u1", platform := "facebook",
          accessToken := [97], refreshToken := none, tokenExpiresAt := none,
          platformUserId := "p1", platformUsername := none,
          platformProfileImage := none, scopes := [], isActive := true }
        123456
        (Except.ok { accessToken := [98], refreshToken := none,
                     expiresIn := some 3600, tokenType := none }) =
      { result := Except.ok [97], refreshCall := none, update := none } :=
  refresh_noop_without_expiry _ 123456 _ rfl

/-- Claim C4: for a credential with a non-null expiry, the refresh check
invokes the refresh (with the stored refresh token) exactly when the
remaining lifetime `tokenExpiresAt - now` is below the fixed 5-minute
buffer, and on a successful refresh it writes the connection update with
the new tokens and expiry. -/
theorem refresh_iff_below_buffer (conn : SocialConnection) (nowMs expiresAt : Int)
    (o : Except RefreshError OAuthTokens) (_hA : conn.isActive = true)
    (hE : conn.tokenExpiresAt = some expiresAt) :
    ((refreshTokenIfNeeded conn nowMs o).refreshCall = some conn.refreshToken ↔
        expiresAt - nowMs < bufferTime) ∧
      (∀ tk, o = Except.ok tk → expiresAt - nowMs < bufferTime →
        (refreshTokenIfNeeded conn nowMs o).update =
          some { id := conn.id, accessToken := tk.accessToken,
                 refreshToken := orFalsy tk.refreshToken conn.refreshToken,
                 tokenExpiresAt := expiryFromNow nowMs tk.expiresIn }) := by
  constructor
  · by_cases hdue : expiresAt - nowMs < bufferTime
    · cases o <;> simp [refreshTokenIfNeeded, hE, hdue]
    · simp [refreshTokenIfNeeded, hE, hdue]
  · rintro tk rfl hdue
    simp [refreshTokenIfNeeded, hE, hdue]

/-- Concrete instance of `refresh_iff_below_buffer`: expiry 100 s away,
well inside the 5-minute buffer. -/
theorem refresh_iff_below_buffer_witness :
    ((refreshTokenIfNeeded
          { id := "c1", userId := "u1", platform := "facebook",
            accessToken := [97], refreshToken := some [114, 116],
            tokenExpiresAt := some 100000, platformUserId := "p1",
            platformUsername := none, platformProfileImage := none, scopes := [],
            isActive := true } 0
          (Except.ok { accessToken := [98], refreshToken := none,
                       expiresIn := some 3600, tokenType := none })).refreshCall =
        some (some [114, 116]) ↔ (100000 : Int) - 0 < bufferTime) ∧
      (∀ tk : OAuthTokens,
        (Except.ok { accessToken := [98], refreshToken := none,
                     expiresIn := some 3600, tokenType := none } :
            Except RefreshError OAuthTokens) = Except.ok tk →
        (100000 : Int) - 0 < bufferTime →
        (refreshTokenIfNeeded
            { id := "c1", userId := "u1", platform := "facebook",
              accessToken := [97], refreshToken := some [114, 116],
              tokenExpiresAt := some 100000, platformUserId := "p1",
              platformUsername := none, platformProfileImage := none, scopes := [],
              isActive := true } 0
            (Except.ok { accessToken := [98], refreshToken := none,
                         expiresIn := some 3600, tokenType := none })).update =
          some { id := "c1", accessToken := tk.accessToken,
                 refreshToken := orFalsy tk.refreshToken (some [114, 116]),
                 tokenExpiresAt := expiryFromNow 0 tk.expiresIn }) :=
  refresh_iff_below_buffer _ 0 100000 _ rfl rfl

/-- Claim C7 counterexample: the thrown exchange error does NOT carry the
provider status. Two non-success responses identical except for their
status — 400 versus 500 — produce exactly the same result: the source
throws `new Error` built from the response body text alone (guide lines
290-293) and never reads `response.status`, so the error cannot be
`ExchangeFailed(providerStatus, providerBody)` as claimed. -/
theorem exchange_discards_status_cex :
    exchangeCodeForTokens
        [{ ok := false, status := 400, body := "invalid_grant",
           tokens := { accessToken := [], refreshToken := none, expiresIn := none,
                       tokenType := none } }] =
      exchangeCodeForTokens
        [{ ok := false, status := 500, body := "invalid_grant",
           tokens := { accessToken := [], refreshToken := none, expiresIn := none,
                       tokenType := none } }] :=
  rfl

/-- Claim C7 as amended: on a non-success provider response,
`exchangeCodeForTokens` fails with a thrown error whose message is
`Token exchange failed: ` followed by the provider body text only (the
provider status is discarded), and consumes exactly the one pending
response — a single outbound token-endpoint request, no retry. -/
theorem exchange_failure_no_retry (r : HttpResponse) (rest : List HttpResponse)
    (h : r.ok = false) :
    exchangeCodeForTokens (r :: rest) =
      (Except.error (ExchangeError.exchangeFailed ("Token exchange failed: " ++ r.body)),
        rest) := by
  simp [exchangeCodeForTokens, h]

/-- Concrete instance of `exchange_failure_no_retry` on a 400 response. -/
theorem exchange_failure_no_retry_witness :
    exchangeCodeForTokens
        [{ ok := false, status := 400, body := "invalid_grant",
           tokens := { accessToken := [], refreshToken := none, expiresIn := none,
                       tokenType := none } },
         { ok := true, status := 200, body := "",
           tokens := { accessToken := [97], refreshToken := none, expiresIn := none,
                       tokenType := none } }] =
      (Except.error (ExchangeError.exchangeFailed "Token exchange failed: invalid_grant"),
        [{ ok := true, status := 200, body := "",
           tokens := { accessToken := [97], refreshToken := none, expiresIn := none,
                       tokenType := none } }]) :=
  exchange_failure_no_retry _ _ rfl

/-- Claim C5 counterexample: a credential due for refresh whose provider
rejects the refresh token. `refreshTokenIfNeeded` propagates the error
and performs no store write — in particular it does not clear the active
flag — and the user's active-connection listing still contains the
credential (platform `facebook`); the claim's promised deactivation and
exclusion from `listActive` do not happen. -/
theorem refresh_failure_no_deactivation_cex :
    (refreshTokenIfNeeded
        { id := "c1", userId := "u1", platform := "facebook",
          accessToken := encryptToken 5 7 [116, 49], refreshToken := some [114, 116],
          tokenExpiresAt := some 100000, platformUserId := "p1",
          platformUsername := none, platformProfileImage := none, scopes := [],
          isActive := true } 0
        (Except.error (RefreshError.refreshFailed true "invalid_grant"))).result =
      Except.error (RefreshError.refreshFailed true "invalid_grant") ∧
    (refreshTokenIfNeeded
        { id := "c1", userId := "u1", platform := "facebook",
          accessToken := encryptToken 5 7 [116, 49], refreshToken := some [114, 116],
          tokenExpiresAt := some 100000, platformUserId := "p1",
          platformUsername := none, platformProfileImage := none, scopes := [],
          isActive := true } 0
        (Except.error (RefreshError.refreshFailed true "invalid_grant"))).update =
      none ∧
    (getConnections 5 "u1"
        [{ id := "c1", userId := "u1", platform := "facebook",
           accessToken := encryptToken 5 7 [116, 49], refreshToken := some [114, 116],
           tokenExpiresAt := some 100000, platformUserId := "p1",
           platformUsername := none, platformProfileImage := none, scopes := [],
           isActive := true }]).map SocialConnection.platform = ["facebook"] :=
  ⟨rfl, rfl, rfl⟩

/-- Claim C5 as amended: when the refresh fails — for any cause,
including a rejected refresh token — `refreshTokenIfNeeded` propagates
the error and performs no store write: the credential is not
deactivated, its active flag is unchanged, and (the store being
untouched) the still-active credential remains in the user's
active-connection listing. -/
theorem refresh_failure_propagates_no_write (conn : SocialConnection)
    (store : List SocialConnection) (key : Nat) (nowMs expiresAt : Int)
    (e : RefreshError) (hE : conn.tokenExpiresAt = some expiresAt)
    (hdue : expiresAt - nowMs < bufferTime) (hA : conn.isActive = true)
    (hMem : conn ∈ store) :
    (refreshTokenIfNeeded conn nowMs (Except.error e)).result = Except.error e ∧
      (refreshTokenIfNeeded conn nowMs (Except.error e)).update = none ∧
      { conn with accessToken := decryptToken key conn.accessToken } ∈
        getConnections key conn.userId store := by
  refine ⟨?_, ?_, mem_getConnections_of_active key store conn hMem hA⟩ <;>
    simp [refreshTokenIfNeeded, hE, hdue]

/-- Concrete instance of `refresh_failure_propagates_no_write`. -/
theorem refresh_failure_propagates_no_write_witness :
    (refreshTokenIfNeeded
        { id := "c1", userId := "u1", platform := "facebook",
          accessToken := encryptToken 5 7 [116, 49], refreshToken := some [114, 116],
          tokenExpiresAt := some 200000, platformUserId := "p1",
          platformUsername := none, platformProfileImage := none, scopes := [],
          isActive := true } 0
        (Except.error (RefreshError.refreshFailed false "timeout"))).result =
      Except.error (RefreshError.refreshFailed false "timeout") ∧
    (refreshTokenIfNeeded
        { id := "c1", userId := "u1", platform := "facebook",
          accessToken := encryptToken 5 7 [116, 49], refreshToken := some [114, 116],
          tokenExpiresAt := some 200000, platformUserId := "p1",
          platformUsername := none, platformProfileImage := none, scopes := [],
          isActive := true } 0
        (Except.error (RefreshError.refreshFailed false "timeout"))).update = none ∧
    { id := "c1", userId := "u1", platform := "facebook",
      accessToken := decryptToken 5 (encryptToken 5 7 [116, 49]),
      refreshToken := some [114, 116],
      tokenExpiresAt := some 200000, platformUserId := "p1",
      platformUsername := none, platformProfileImage := none, scopes := [],
      isActive := true } ∈
      getConnections 5 "u1"
        [{ id := "c1", userId := "u1", platform := "facebook",
           accessToken := encryptToken 5 7 [116, 49], refreshToken := some [114, 116],
           tokenExpiresAt := some 200000, platformUserId := "p1",
           platformUsername := none, platformProfileImage := none, scopes := [],
           isActive := true }] :=
  refresh_failure_propagates_no_write _ _ 5 0 200000 _ rfl (by decide) rfl
    (List.mem_singleton.mpr rfl)

/-- Claim C1 counterexample: two sequential `saveConnection` calls for the
same (user, platform) pair, starting from an empty table, leave TWO
active credentials for that platform in `getConnections` — the insert
does not deactivate or replace the prior active row, so the listing does
not contain exactly one entry as claimed. -/
theorem double_save_two_active_cex :
    (getConnections 5 "u1"
        (saveConnection 5 9 11 "id2"
          { userId := "u1", platform := "facebook", accessToken := [116, 50],
            refreshToken := none, tokenExpiresAt := none, platformUserId := "p1",
            platformUsername := none, platformProfileImage := none, scopes := [] }
          (saveConnection 5 7 8 "id1"
            { userId := "u1", platform := "facebook", accessToken := [116, 49],
              refreshToken := none, tokenExpiresAt := none, platformUserId := "p1",
              platformUsername := none, platformProfileImage := none, scopes := [] }
            []))).map SocialConnection.platform = ["facebook", "facebook"] := by
  decide

/-- Claim C1 as amended: `saveConnection` always inserts a fresh active
row and never deactivates a prior one, so after two sequential saves for
the same (user, platform) pair the user's active listing has grown by
exactly two entries for that platform, both active; the last entry
reflects the second call's data. -/
theorem double_save_two_active (key iv1a iv1r iv2a iv2r : Nat) (id1 id2 u p : String)
    (d1 d2 : ConnectionData) (store : List SocialConnection)
    (h1u : d1.userId = u) (h2u : d2.userId = u)
    (h1p : d1.platform = p) (h2p : d2.platform = p)
    (hb1 : ∀ b ∈ d1.accessToken, b < 256) (hb2 : ∀ b ∈ d2.accessToken, b < 256) :
    getConnections key u
        (saveConnection key iv2a iv2r id2 d2 (saveConnection key iv1a iv1r id1 d1 store)) =
      getConnections key u store ++
        [{ id := id1, userId := u, platform := p, accessToken := d1.accessToken,
           refreshToken := (truthyStr d1.refreshToken).map (encryptToken key iv1r),
           tokenExpiresAt := d1.tokenExpiresAt, platformUserId := d1.platformUserId,
           platformUsername := d1.platformUsername,
           platformProfileImage := d1.platformProfileImage, scopes := d1.scopes,
           isActive := true },
         { id := id2, userId := u, platform := p, accessToken := d2.accessToken,
           refreshToken := (truthyStr d2.refreshToken).map (encryptToken key iv2r),
           tokenExpiresAt := d2.tokenExpiresAt, platformUserId := d2.platformUserId,
           platformUsername := d2.platformUsername,
           platformProfileImage := d2.platformProfileImage, scopes := d2.scopes,
           isActive := true }] := by
  have e1 := getConnections_saveConnection key iv1a iv1r id1 d1 store hb1
  have e2 := getConnections_saveConnection key iv2a iv2r id2 d2
    (saveConnection key iv1a iv1r id1 d1 store) hb2
  rw [h1u, h1p] at e1
  rw [h2u, h2p] at e2
  rw [e2, e1, List.append_assoc]
  rfl

/-- Concrete instance of `double_save_two_active`. -/
theorem double_save_two_active_witness :
    getConnections 5 "u1"
        (saveConnection 5 9 11 "id2"
          { userId := "u1", platform := "facebook", accessToken := [116, 50],
            refreshToken := none, tokenExpiresAt := some 1000, platformUserId := "p1",
            platformUsername := none, platformProfileImage := none, scopes := [] }
          (saveConnection 5 7 8 "id1"
            { userId := "u1", platform := "facebook", accessToken := [116, 49],
              refreshToken := none, tokenExpiresAt := none, platformUserId := "p1",
              platformUsername := none, platformProfileImage := none, scopes := [] }
            [])) =
      getConnections 5 "u1" [] ++
        [{ id := "id1", userId := "u1", platform := "facebook", accessToken := [116, 49],
           refreshToken := (truthyStr none).map (encryptToken 5 8),
           tokenExpiresAt := none, platformUserId := "p1",
           platformUsername := none, platformProfileImage := none, scopes := [],
           isActive := true },
         { id := "id2", userId := "u1", platform := "facebook", accessToken := [116, 50],
           refreshToken := (truthyStr none).map (encryptToken 5 11),
           tokenExpiresAt := some 1000, platformUserId := "p1",
           platformUsername := none, platformProfileImage := none, scopes := [],
           isActive := true }] :=
  double_save_two_active 5 7 8 9 11 "id1" "id2" "u1" "facebook" _ _ []
    rfl rfl rfl rfl (by decide) (by decide)

/-- Claim C3 counterexample: save a credential whose refresh token is the
byte string `"rt"`, then read it back with `getConnections`: the
returned refresh token is NOT the plaintext `"rt"` — `getConnections`
decrypts only the access token, so the refresh-token field does not
round-trip to plaintext at the moment of `get`. -/
theorem get_encrypted_refresh_cex :
    (getConnections 5 "u1"
        (saveConnection 5 7 8 "id1"
          { userId := "u1", platform := "facebook", accessToken := [116, 49],
            refreshToken := some [114, 116], tokenExpiresAt := none,
            platformUserId := "p1", platformUsername := none,
            platformProfileImage := none, scopes := [] } [])).map
        SocialConnection.refreshToken ≠ [some [114, 116]] := by
  decide

/-- Claim C3 as amended: `save` followed by `get` round-trips every field
except the refresh token: at rest both tokens are stored only encrypted
(and an encrypted token never equals its plaintext), `getConnections`
materializes the access token in plaintext, but the refresh token comes
back still in its encrypted stored form, never decrypted. -/
theorem save_get_roundtrip_except_refresh (key ivA ivR : Nat) (newId : String)
    (data : ConnectionData) (store : List SocialConnection)
    (hb : ∀ b ∈ data.accessToken, b < 256) :
    saveConnection key ivA ivR newId data store =
        store ++
          [{ id := newId, userId := data.userId, platform := data.platform,
             accessToken := encryptToken key ivA data.accessToken,
             refreshToken := (truthyStr data.refreshToken).map (encryptToken key ivR),
             tokenExpiresAt := data.tokenExpiresAt,
             platformUserId := data.platformUserId,
             platformUsername := data.platformUsername,
             platformProfileImage := data.platformProfileImage, scopes := data.scopes,
             isActive := true }] ∧
      getConnections key data.userId (saveConnection key ivA ivR newId data store) =
          getConnections key data.userId store ++
            [{ id := newId, userId := data.userId, platform := data.platform,
               accessToken := data.accessToken,
               refreshToken := (truthyStr data.refreshToken).map (encryptToken key ivR),
               tokenExpiresAt := data.tokenExpiresAt,
               platformUserId := data.platformUserId,
               platformUsername := data.platformUsername,
               platformProfileImage := data.platformProfileImage, scopes := data.scopes,
               isActive := true }] ∧
      (∀ iv t, encryptToken key iv t ≠ t) ∧
      (∀ rt, data.refreshToken = some rt →
        (truthyStr data.refreshToken).map (encryptToken key ivR) ≠ some rt) := by
  refine ⟨rfl, getConnections_saveConnection key ivA ivR newId data store hb,
    fun iv t => encryptToken_ne key iv t, ?_⟩
  rintro rt hrt
  rw [hrt]
  by_cases hE : rt.isEmpty
  · simp [truthyStr, hE]
  · simp only [truthyStr, hE, Bool.false_eq_true, if_false, Option.map_some']
    intro hcontra
    exact encryptToken_ne key ivR rt (Option.some.inj hcontra)

/-- Concrete instance of `save_get_roundtrip_except_refresh`. -/
theorem save_get_roundtrip_except_refresh_witness :
    saveConnection 5 7 8 "id1"
        { userId := "u1", platform := "facebook", accessToken := [116, 49],
          refreshToken := some [114, 116], tokenExpiresAt := some 1000,
          platformUserId := "p1", platformUsername := some "alice",
          platformProfileImage := none, scopes := ["pages_manage_posts"] } [] =
        [] ++
          [{ id := "id1", userId := "u1", platform := "facebook",
             accessToken := encryptToken 5 7 [116, 49],
             refreshToken := (truthyStr (some [114, 116])).map (encryptToken 5 8),
             tokenExpiresAt := some 1000, platformUserId := "p1",
             platformUsername := some "alice", platformProfileImage := none,
             scopes := ["pages_manage_posts"], isActive := true }] ∧
      getConnections 5 "u1"
          (saveConnection 5 7 8 "id1"
            { userId := "u1", platform := "facebook", accessToken := [116, 49],
              refreshToken := some [114, 116], tokenExpiresAt := some 1000,
              platformUserId := "p1", platformUsername := some "alice",
              platformProfileImage := none, scopes := ["pages_manage_posts"] } []) =
          getConnections 5 "u1" [] ++
            [{ id := "id1", userId := "u1", platform := "facebook",
               accessToken := [116, 49],
               refreshToken := (truthyStr (some [114, 116])).map (encryptToken 5 8),
               tokenExpiresAt := some 1000, platformUserId := "p1",
               platformUsername := some "alice", platformProfileImage := none,
               scopes := ["pages_manage_posts"], isActive := true }] ∧
      (∀ iv t, encryptToken 5 iv t ≠ t) ∧
      (∀ rt, (some [114, 116] : Option (List Nat)) = some rt →
        (truthyStr (some [114, 116])).map (encryptToken 5 8) ≠ some rt) :=
  save_get_roundtrip_except_refresh 5 7 8 "id1" _ [] (by decide)

/-- Claim C2, evaluated at its failing input: a fresh browser (empty
cookie jar) initiates the `facebook` connect with issued state `xyz` at
t = 0; the callback arrives at t = 1000 ms — well inside the window —
presenting exactly the issued value `xyz` with a valid code and a 200
provider response pending. The program returns the `invalid_state`
(correlation-mismatch) redirect with the jar, store and pending
responses untouched: the initiation route set the state cookie on a
discarded `NextResponse` (guide lines 169-175) and returned a fresh
cookie-less redirect (line 185), so `request.cookies.get` reads
undefined and verification can never return Ok — contradicting both the
claim and the route's own comment ("Store state in session/cookie (for
verification in callback)") and the guide's testing checklist
("Callback handles success case"). The final conjunct shows the fix is
the claim's behaviour: had the cookie-bearing response been returned
(jar as `setStateCookie` leaves it), the very same callback succeeds. -/
theorem state_cookie_never_set_verify_fails :
    oauthInitiate "facebook" "xyz" 0 [] = [] ∧
    oauthCallback "facebook" { code := some "abc", state := some "xyz", error := none }
        "u1" { id := "p1", username := none, profileImage := none } [] 5 7 8 "id1" 1000
        (oauthInitiate "facebook" "xyz" 0 []) []
        [{ ok := true, status := 200, body := "",
           tokens := { accessToken := [116, 49], refreshToken := none,
                       expiresIn := some 3600, tokenType := none } }] =
      { result := CallbackResult.errInvalidState, jar := [], store := [],
        resps := [{ ok := true, status := 200, body := "",
                    tokens := { accessToken := [116, 49], refreshToken := none,
                                expiresIn := some 3600, tokenType := none } }] } ∧
    (oauthCallback "facebook" { code := some "abc", state := some "xyz", error := none }
        "u1" { id := "p1", username := none, profileImage := none } [] 5 7 8 "id1" 1000
        (setStateCookie "facebook" "xyz" 0 []) []
        [{ ok := true, status := 200, body := "",
           tokens := { accessToken := [116, 49], refreshToken := none,
                       expiresIn := some 3600, tokenType := none } }]).result =
      CallbackResult.success :=
  ⟨rfl, by decide, by decide⟩

/-- Claim C6: a callback whose presented state differs from the stored
state-cookie value — a jar holding the issued value the way the route's
cookie write intends it stored, see `setStateCookie` — is rejected with
the `invalid_state` (correlation-mismatch) result, and nothing else
happens: the cookie jar, the credential store and the pending provider
responses are all returned unchanged — no token exchange is attempted
and no credential is written. In the program as written the cookie is
never actually stored (see `oauthInitiate`), and the outcome is the
same: no presented state matches an absent cookie, so the comparison
fails the same way with the same absence of effects. -/
theorem forged_state_no_effect (platform value forged code userId : String)
    (profile : UserProfile) (scopes : List String) (key ivA ivR : Nat) (newId : String)
    (t0 nowMs : Int) (jar : List Cookie) (store : List SocialConnection)
    (resps : List HttpResponse)
    (hne : forged ≠ value) (hWin : nowMs < t0 + 600 * 1000) :
    oauthCallback platform { code := some code, state := some forged, error := none }
        userId profile scopes key ivA ivR newId nowMs
        (setStateCookie platform value t0 jar) store resps =
      { result := CallbackResult.errInvalidState,
        jar := setStateCookie platform value t0 jar, store := store, resps := resps } := by
  have hcook := getCookie_setStateCookie_fresh platform value t0 nowMs jar hWin
  simp [oauthCallback, hcook, hne.symm]

/-- Concrete instance of `forged_state_no_effect`: `state=forged` while
the issued value is `xyz`. -/
theorem forged_state_no_effect_witness :
    oauthCallback "facebook" { code := some "abc", state := some "forged", error := none }
        "u1" { id := "p1", username := none, profileImage := none } [] 5 7 8 "id1" 1000
        (setStateCookie "facebook" "xyz" 0 []) []
        [{ ok := true, status := 200, body := "",
           tokens := { accessToken := [116, 49], refreshToken := none,
                       expiresIn := some 3600, tokenType := none } }] =
      { result := CallbackResult.errInvalidState,
        jar := setStateCookie "facebook" "xyz" 0 [], store := [],
        resps := [{ ok := true, status := 200, body := "",
                    tokens := { accessToken := [116, 49], refreshToken := none,
                                expiresIn := some 3600, tokenType := none } }] } :=
  forged_state_no_effect "facebook" "xyz" "forged" "abc" "u1"
    { id := "p1", username := none, profileImage := none } [] 5 7 8 "id1" 0 1000 [] [] _
    (by decide) (by decide)

/-- Claim C8 counterexample: a callback presenting the exactly-issued
state value after the 10-minute window ends produces the result
`errInvalidState` — the very same result a forged state produces — not a
distinct correlation-expired result; the expired cookie is simply
absent, and the route's closed result set has no expired-specific
error. -/
theorem expired_state_same_as_mismatch_cex :
    (oauthCallback "facebook" { code := some "abc", state := some "xyz", error := none }
        "u1" { id := "p1", username := none, profileImage := none } [] 5 7 8 "id1" 600000
        (setStateCookie "facebook" "xyz" 0 []) [] []).result =
      CallbackResult.errInvalidState ∧
    (oauthCallback "facebook" { code := some "abc", state := some "forged", error := none }
        "u1" { id := "p1", username := none, profileImage := none } [] 5 7 8 "id1" 0
        (setStateCookie "facebook" "xyz" 0 []) [] []).result =
      CallbackResult.errInvalidState := by
  exact ⟨by decide, by decide⟩

/-- Claim C8 as amended: a verify after the fixed 10-minute window fails
even with the correct value, but with the same `invalid_state`
(correlation-mismatch) result a forged state receives — the expired
cookie reads as absent and there is no distinct correlation-expired
result; the callback leaves the jar, store and pending responses
unchanged. The jar is taken as the route's cookie write intends it
(`setStateCookie`); in the program as written the cookie is never even
stored (see `oauthInitiate`) and the same `invalid_state` outcome holds
a fortiori. -/
theorem expired_state_invalid_state (platform value code userId : String)
    (profile : UserProfile) (scopes : List String) (key ivA ivR : Nat) (newId : String)
    (t0 nowMs : Int) (jar : List Cookie) (store : List SocialConnection)
    (resps : List HttpResponse) (hExp : t0 + 600 * 1000 ≤ nowMs) :
    oauthCallback platform { code := some code, state := some value, error := none }
        userId profile scopes key ivA ivR newId nowMs
        (setStateCookie platform value t0 jar) store resps =
      { result := CallbackResult.errInvalidState,
        jar := setStateCookie platform value t0 jar, store := store, resps := resps } := by
  have hcook := getCookie_setStateCookie_expired platform value t0 nowMs jar hExp
  simp [oauthCallback, hcook]

/-- Concrete instance of `expired_state_invalid_state`: the correct state
value presented at minute 10 on the dot. -/
theorem expired_state_invalid_state_witness :
    oauthCallback "facebook" { code := some "abc", state := some "xyz", error := none }
        "u1" { id := "p1", username := none, profileImage := none } [] 5 7 8 "id1" 600000
        (setStateCookie "facebook" "xyz" 0 []) []
        [{ ok := true, status := 200, body := "",
           tokens := { accessToken := [116, 49], refreshToken := none,
                       expiresIn := some 3600, tokenType := none } }] =
      { result := CallbackResult.errInvalidState,
        jar := setStateCookie "facebook" "xyz" 0 [], store := [],
        resps := [{ ok := true, status := 200, body := "",
                    tokens := { accessToken := [116, 49], refreshToken := none,
                                expiresIn := some 3600, tokenType := none } }] } :=
  expired_state_invalid_state "facebook" "xyz" "abc" "u1"
    { id := "p1", username := none, profileImage := none } [] 5 7 8 "id1" 0 600000 [] [] _
    (by decide)
